import Mathlib

/-!
Shallow embedding of the rule-checking core of the DICE repository
(src/state.rs and src/game.rs).

Die values and guesses are `u8` in the source; they are modelled as `Nat`
quantified over `Fin 256` in the theorems. The operations use only `%`,
`==`, `<=`, `>=` and `>`, which agree with the `Nat` operations on the
`u8` range, so no wraparound modelling is needed.

The two message pickers draw a random index with
`rng.gen_range(0..messages.len())`; that draw is modelled as an explicit
`Fin` index into the fixed message list.
-/

/-- User choice in the even/odd game (src/state.rs `EvenOddChoice`). -/
inductive EvenOddChoice where | Even | Odd
deriving DecidableEq, Fintype

/-- User choice in the high/low game (src/state.rs `HighLowChoice`). -/
inductive HighLowChoice where | High | Low
deriving DecidableEq, Fintype

/-- User choice in the guess-one game (src/state.rs `GuessOneChoice`). -/
inductive GuessOneChoice where | Yes | No
deriving DecidableEq, Fintype

/-- src/game.rs `DiceGame::check_even_odd`: `is_even = dice_result % 2 == 0`;
Even returns `is_even`, Odd returns `!is_even`. -/
def check_even_odd (dice_result : Nat) (user_choice : EvenOddChoice) : Bool :=
  let is_even := dice_result % 2 == 0
  match user_choice with
  | EvenOddChoice.Even => is_even
  | EvenOddChoice.Odd => !is_even

/-- src/game.rs `DiceGame::check_high_low`: High returns `dice_result >= 4`,
Low returns `dice_result <= 3`. -/
def check_high_low (dice_result : Nat) (user_choice : HighLowChoice) : Bool :=
  match user_choice with
  | HighLowChoice.High => decide (4 ≤ dice_result)
  | HighLowChoice.Low => decide (dice_result ≤ 3)

/-- src/game.rs `DiceGame::check_exact_number`: `dice_result == user_guess`. -/
def check_exact_number (dice_result : Nat) (user_guess : Nat) : Bool :=
  dice_result == user_guess

/-- src/game.rs `DiceGame::check_guess_one`: `is_one = dice_result == 1`;
Yes returns `is_one`, No returns `!is_one`. -/
def check_guess_one (dice_result : Nat) (user_choice : GuessOneChoice) : Bool :=
  let is_one := dice_result == 1
  match user_choice with
  | GuessOneChoice.Yes => is_one
  | GuessOneChoice.No => !is_one

/-- The fixed five-element message array of src/game.rs `DiceGame::win_message`. -/
def win_messages : List String :=
  ["🎉 Поздравляю! Вы угадали!",
   "🎊 Отлично! Правильный ответ!",
   "✨ Великолепно! Вы победили!",
   "🏆 Браво! Точное попадание!",
   "🎯 Превосходно! Вы угадали!"]

/-- The fixed five-element message array of src/game.rs `DiceGame::lose_message`. -/
def lose_messages : List String :=
  ["😔 Не угадали, но не расстраивайтесь!",
   "🎲 В этот раз не повезло, попробуйте еще!",
   "💪 Ничего страшного, удача улыбнется в следующий раз!",
   "🌟 Не переживайте, у вас все получится!",
   "🎮 Попытка не пытка, играем еще!"]

/-- src/game.rs `DiceGame::win_message`, with the random draw
`rng.gen_range(0..messages.len())` made an explicit index input. -/
def win_message (draw : Fin win_messages.length) : String :=
  win_messages.get draw

/-- src/game.rs `DiceGame::lose_message`, with the random draw made an
explicit index input. -/
def lose_message (draw : Fin lose_messages.length) : String :=
  lose_messages.get draw

/-- src/game.rs `DiceGame::compare_dices`: strict greater-than comparison,
equal values yield the tie string. -/
def compare_dices (bot_dice : Nat) (user_dice : Nat) : String :=
  if bot_dice > user_dice then "🤖 Компьютер победил!"
  else if user_dice > bot_dice then "🎉 Пользователь победил!"
  else "🤝 Ничья!"

/-- C1: for every die value d in [1,6] (as u8), `check_high_low d High`
returns `d >= 4`, `check_high_low d Low` returns `d <= 3`, and the two
results are complementary on [1,6]. -/
theorem check_high_low_spec (d : Fin 256) (h1 : 1 ≤ d.val) (h2 : d.val ≤ 6) :
    check_high_low d.val HighLowChoice.High = decide (4 ≤ d.val) ∧
    check_high_low d.val HighLowChoice.Low = decide (d.val ≤ 3) ∧
    check_high_low d.val HighLowChoice.High = !check_high_low d.val HighLowChoice.Low := by
  refine ⟨rfl, rfl, ?_⟩
  simp only [check_high_low]
  rw [← decide_not]
  exact decide_eq_decide.mpr (by omega)

/-- Witness for C1 at the concrete die value 5. -/
theorem check_high_low_spec_witness :
    check_high_low 5 HighLowChoice.High = decide (4 ≤ (5 : Nat)) ∧
    check_high_low 5 HighLowChoice.Low = decide ((5 : Nat) ≤ 3) ∧
    check_high_low 5 HighLowChoice.High = !check_high_low 5 HighLowChoice.Low :=
  check_high_low_spec ⟨5, by decide⟩ (by decide) (by decide)

set_option maxRecDepth 4096 in
/-- C2 counterexample: the claim asserts some u8 value outside [1,6] (0 or
>= 7) on which the High and Low checks fail to be complementary; no such
value exists among the 256 u8 values. -/
theorem check_high_low_noncomplementary_refuted :
    ¬ ∃ d : Fin 256, (d.val = 0 ∨ 7 ≤ d.val) ∧
      check_high_low d.val HighLowChoice.High ≠
        (!check_high_low d.val HighLowChoice.Low) := by
  decide

/-- C2 (amended): the High and Low checks ARE complementary on the whole
u8 domain, including 0 and every value above 6, because `d >= 4` is the
exact negation of `d <= 3` for every u8 value. -/
theorem check_high_low_complementary_all_u8 (d : Fin 256) :
    check_high_low d.val HighLowChoice.High =
      !check_high_low d.val HighLowChoice.Low := by
  simp only [check_high_low]
  rw [← decide_not]
  exact decide_eq_decide.mpr (by omega)

/-- C3: for every die value d in [1,6] (as u8), `check_even_odd d Even`
returns `d % 2 == 0`, `check_even_odd d Odd` returns its negation, and
the two results are complementary. -/
theorem check_even_odd_spec (d : Fin 256) (h1 : 1 ≤ d.val) (h2 : d.val ≤ 6) :
    check_even_odd d.val EvenOddChoice.Even = (d.val % 2 == 0) ∧
    check_even_odd d.val EvenOddChoice.Odd = !(d.val % 2 == 0) ∧
    check_even_odd d.val EvenOddChoice.Even = !check_even_odd d.val EvenOddChoice.Odd :=
  ⟨rfl, rfl, (Bool.not_not _).symm⟩

/-- Witness for C3 at the concrete die value 2. -/
theorem check_even_odd_spec_witness :
    check_even_odd 2 EvenOddChoice.Even = ((2 : Nat) % 2 == 0) ∧
    check_even_odd 2 EvenOddChoice.Odd = !((2 : Nat) % 2 == 0) ∧
    check_even_odd 2 EvenOddChoice.Even = !check_even_odd 2 EvenOddChoice.Odd :=
  check_even_odd_spec ⟨2, by decide⟩ (by decide) (by decide)

/-- C4: for every die value d in [1,6] (as u8), `check_guess_one d Yes`
returns `d == 1` and `check_guess_one d No` returns `d != 1`. -/
theorem check_guess_one_spec (d : Fin 256) (h1 : 1 ≤ d.val) (h2 : d.val ≤ 6) :
    check_guess_one d.val GuessOneChoice.Yes = (d.val == 1) ∧
    check_guess_one d.val GuessOneChoice.No = !(d.val == 1) :=
  ⟨rfl, rfl⟩

/-- Witness for C4 at the concrete die value 1. -/
theorem check_guess_one_spec_witness :
    check_guess_one 1 GuessOneChoice.Yes = ((1 : Nat) == 1) ∧
    check_guess_one 1 GuessOneChoice.No = !((1 : Nat) == 1) :=
  check_guess_one_spec ⟨1, by decide⟩ (by decide) (by decide)

/-- C5: for every die value d in [1,6] (as u8), `check_exact_number d d`
is true; for any u8 guess g with g != d, `check_exact_number d g` is
false; and on every pair of u8 arguments (in range or not) the function
is the bare equality test, with no range validation. -/
theorem check_exact_number_spec (d g a b : Fin 256)
    (h1 : 1 ≤ d.val) (h2 : d.val ≤ 6) (hg : g.val ≠ d.val) :
    check_exact_number d.val d.val = true ∧
    check_exact_number d.val g.val = false ∧
    check_exact_number a.val b.val = (a.val == b.val) := by
  refine ⟨?_, ?_, rfl⟩
  · simp [check_exact_number]
  · simp only [check_exact_number, beq_eq_false_iff_ne, ne_eq]
    omega

/-- Witness for C5 at die value 3, guess 5, and the out-of-range pair
(0, 200). -/
theorem check_exact_number_spec_witness :
    check_exact_number 3 3 = true ∧
    check_exact_number 3 5 = false ∧
    check_exact_number 0 200 = ((0 : Nat) == 200) :=
  check_exact_number_spec ⟨3, by decide⟩ ⟨5, by decide⟩ ⟨0, by decide⟩ ⟨200, by decide⟩
    (by decide) (by decide) (by decide)

/-- C6: compare_dices is decided by strict greater-than comparison and
returns exactly one of three pairwise-distinct fixed tags: the bot-wins
tag when the first value is greater, the user-wins tag when the second is
greater, the tie tag when they are equal; in particular on (5,3), (2,4)
and (3,3). -/
theorem compare_dices_spec (a b c d e f x y : Fin 256)
    (hab : b.val < a.val) (hcd : c.val < d.val) (hef : e.val = f.val) :
    compare_dices a.val b.val = "🤖 Компьютер победил!" ∧
    compare_dices c.val d.val = "🎉 Пользователь победил!" ∧
    compare_dices e.val f.val = "🤝 Ничья!" ∧
    compare_dices x.val y.val ∈
      ["🤖 Компьютер победил!", "🎉 Пользователь победил!", "🤝 Ничья!"] ∧
    ("🤖 Компьютер победил!" : String) ≠ "🎉 Пользователь победил!" ∧
    ("🎉 Пользователь победил!" : String) ≠ "🤝 Ничья!" ∧
    ("🤖 Компьютер победил!" : String) ≠ "🤝 Ничья!" ∧
    compare_dices 5 3 = "🤖 Компьютер победил!" ∧
    compare_dices 2 4 = "🎉 Пользователь победил!" ∧
    compare_dices 3 3 = "🤝 Ничья!" := by
  refine ⟨?_, ?_, ?_, ?_, by decide, by decide, by decide, rfl, rfl, rfl⟩
  · unfold compare_dices
    rw [if_pos hab]
  · unfold compare_dices
    rw [if_neg (by omega), if_pos (by omega)]
  · unfold compare_dices
    rw [if_neg (by omega), if_neg (by omega)]
  · unfold compare_dices
    split
    · simp
    split
    · simp
    · simp

/-- Witness for C6 at the pairs (5,3), (2,4), (3,3) and (0,0). -/
theorem compare_dices_spec_witness :
    compare_dices 5 3 = "🤖 Компьютер победил!" ∧
    compare_dices 2 4 = "🎉 Пользователь победил!" ∧
    compare_dices 3 3 = "🤝 Ничья!" ∧
    compare_dices 0 0 ∈
      ["🤖 Компьютер победил!", "🎉 Пользователь победил!", "🤝 Ничья!"] ∧
    ("🤖 Компьютер победил!" : String) ≠ "🎉 Пользователь победил!" ∧
    ("🎉 Пользователь победил!" : String) ≠ "🤝 Ничья!" ∧
    ("🤖 Компьютер победил!" : String) ≠ "🤝 Ничья!" ∧
    compare_dices 5 3 = "🤖 Компьютер победил!" ∧
    compare_dices 2 4 = "🎉 Пользователь победил!" ∧
    compare_dices 3 3 = "🤝 Ничья!" :=
  compare_dices_spec ⟨5, by decide⟩ ⟨3, by decide⟩ ⟨2, by decide⟩ ⟨4, by decide⟩
    ⟨3, by decide⟩ ⟨3, by decide⟩ ⟨0, by decide⟩ ⟨0, by decide⟩
    (by decide) (by decide) (by decide)

/-- C7: for unequal u8 values the outcomes of compare_dices on (a,b) and
(b,a) swap between the bot-wins tag and the user-wins tag, and on any
equal pair compare_dices yields the tie tag. -/
theorem compare_dices_antisymm (a b c : Fin 256) (hab : a.val ≠ b.val) :
    ((compare_dices a.val b.val = "🤖 Компьютер победил!" ∧
      compare_dices b.val a.val = "🎉 Пользователь победил!") ∨
     (compare_dices a.val b.val = "🎉 Пользователь победил!" ∧
      compare_dices b.val a.val = "🤖 Компьютер победил!")) ∧
    compare_dices c.val c.val = "🤝 Ничья!" := by
  constructor
  · rcases Nat.lt_or_ge a.val b.val with h | h
    · refine Or.inr ⟨?_, ?_⟩
      · unfold compare_dices
        rw [if_neg (by omega), if_pos (by omega)]
      · unfold compare_dices
        rw [if_pos (by omega)]
    · have hba : b.val < a.val := by omega
      refine Or.inl ⟨?_, ?_⟩
      · unfold compare_dices
        rw [if_pos (by omega)]
      · unfold compare_dices
        rw [if_neg (by omega), if_pos (by omega)]
  · unfold compare_dices
    rw [if_neg (by omega), if_neg (by omega)]

/-- Witness for C7 at the pair (5,3) and the equal pair (7,7). -/
theorem compare_dices_antisymm_witness :
    ((compare_dices 5 3 = "🤖 Компьютер победил!" ∧
      compare_dices 3 5 = "🎉 Пользователь победил!") ∨
     (compare_dices 5 3 = "🎉 Пользователь победил!" ∧
      compare_dices 3 5 = "🤖 Компьютер победил!")) ∧
    compare_dices 7 7 = "🤝 Ничья!" :=
  compare_dices_antisymm ⟨5, by decide⟩ ⟨3, by decide⟩ ⟨7, by decide⟩ (by decide)

/-- C8: with the random draw an explicit index, every draw makes
win_message return one of the five fixed win strings and lose_message one
of the five fixed lose strings; the two five-element sets are disjoint,
so neither function ever returns a value from the other's set. -/
theorem messages_fixed_disjoint_sets (i : Fin win_messages.length)
    (k : Fin lose_messages.length) :
    win_messages.length = 5 ∧ lose_messages.length = 5 ∧
    win_message i ∈ win_messages ∧ lose_message k ∈ lose_messages ∧
    win_message i ∉ lose_messages ∧ lose_message k ∉ win_messages ∧
    win_message i ≠ lose_message k := by
  refine ⟨rfl, rfl, List.get_mem _ i.val i.isLt, List.get_mem _ k.val k.isLt, ?_, ?_, ?_⟩
  · fin_cases i <;> decide
  · fin_cases k <;> decide
  · fin_cases i <;> fin_cases k <;> decide

/-- C9: the five decision operations are total over the full u8 domain
and every choice variant — on any input each returns one of its possible
results with no failure branch — and the message-array index drawn from
`0..len` is always within the bounds of both five-element arrays, so the
indexing operation always yields a value. -/
theorem decision_ops_total (d g : Fin 256) (ce : EvenOddChoice)
    (ch : HighLowChoice) (cg : GuessOneChoice) (i : Fin 5) :
    (check_even_odd d.val ce = true ∨ check_even_odd d.val ce = false) ∧
    (check_high_low d.val ch = true ∨ check_high_low d.val ch = false) ∧
    (check_exact_number d.val g.val = true ∨ check_exact_number d.val g.val = false) ∧
    (check_guess_one d.val cg = true ∨ check_guess_one d.val cg = false) ∧
    (compare_dices d.val g.val = "🤖 Компьютер победил!" ∨
     compare_dices d.val g.val = "🎉 Пользователь победил!" ∨
     compare_dices d.val g.val = "🤝 Ничья!") ∧
    i.val < win_messages.length ∧ i.val < lose_messages.length ∧
    (win_messages[i.val]?).isSome = true ∧ (lose_messages[i.val]?).isSome = true := by
  have hw : i.val < win_messages.length := i.isLt
  have hl : i.val < lose_messages.length := i.isLt
  refine ⟨Bool.eq_false_or_eq_true _, Bool.eq_false_or_eq_true _,
    Bool.eq_false_or_eq_true _, Bool.eq_false_or_eq_true _,
    ?_, hw, hl, ?_, ?_⟩
  · unfold compare_dices
    split
    · exact Or.inl rfl
    split
    · exact Or.inr (Or.inl rfl)
    · exact Or.inr (Or.inr rfl)
  · rw [List.getElem?_eq_getElem hw]
    rfl
  · rw [List.getElem?_eq_getElem hl]
    rfl

/-- C10: check_exact_number is symmetric in its two u8 arguments. -/
theorem check_exact_number_symm (a b : Fin 256) :
    check_exact_number a.val b.val = check_exact_number b.val a.val := by
  simp only [check_exact_number]
  by_cases h : a.val = b.val
  · rw [h]
  · exact (beq_eq_false_iff_ne.mpr h).trans
      (beq_eq_false_iff_ne.mpr (fun e => h e.symm)).symm
